import Mathlib

/-!
Shallow embedding of the think-thoroughly agent pipeline from
prediction_market_agent/agents/think_thoroughly_agent/think_thoroughly_agent.py.

External collaborators (the crewAI runtime, the model provider, the search
provider) are modelled as oracle records passed to each function, and Python
exceptions are modelled with the Except monad.  The parallel fan-out
par_generator comes from the external prediction_market_agent_tooling package;
following the spec (section 5) it is modelled as an order-preserving map with a
join barrier, collecting one (scenario, Answer or NONE) pair per scenario.
-/

/-- Python exceptions distinguished by the agent code: openai.APIError,
requests.HTTPError, pydantic validation errors (subclasses of ValueError),
and every other exception. -/
inductive PyExc where
  | apiError : PyExc
  | httpError : PyExc
  | validationError : String → PyExc
  | otherExc : String → PyExc
deriving DecidableEq

/-- The class of exceptions caught by the clause except (APIError, HTTPError)
in generate_prediction_for_one_outcome (line 208 of the source). -/
def PyExc.isProviderError : PyExc → Bool
  | .apiError => true
  | .httpError => true
  | _ => false

/-- Modelled from the spec: the Answer schema is declared in the external
prediction_market_agent_tooling package, not under src/.  Per the data model
of the spec, an Answer carries a decision, probability-of-yes, a confidence
and a reasoning text, with probability-of-no complementary to
probability-of-yes (the two should sum to 1). -/
structure Answer where
  decision : String
  p_yes : Rat
  confidence : Rat
  reasoning : String
deriving DecidableEq

/-- Modelled from the spec: probability-of-no is complementary to
probability-of-yes. -/
def Answer.p_no (a : Answer) : Rat := 1 - a.p_yes

/-- The pydantic model Scenarios(BaseModel) with a single field, a list of
scenario strings (source lines 36-37). -/
structure Scenarios where
  scenarios : List String
deriving DecidableEq

/-- Modelled from the spec: the prompt constants live in prompts.py, which is
not under src/; they are treated as opaque, pairwise distinct strings. -/
def RESEARCH_OUTCOME_PROMPT : String := "RESEARCH_OUTCOME_PROMPT"

/-- Modelled from the spec: opaque stand-in for the research prompt variant
that embeds the outputs of the previous refinement round. -/
def RESEARCH_OUTCOME_WITH_PREVIOUS_OUTPUTS_PROMPT : String :=
  "RESEARCH_OUTCOME_WITH_PREVIOUS_OUTPUTS_PROMPT"

/-- Model of the Python fixed-point formatting spec .2f applied to a
nonnegative rational: two decimal digits. -/
def fixed2 (q : Rat) : String :=
  let c : Int := round (q * 100)
  toString (c / 100) ++ "." ++ (if c % 100 < 10 then "0" else "") ++
    toString (c % 100)

/-- One line of the previous-outputs serialization, the f-string at source
lines 202 and 252: scenario, probability of happening, confidence, reasoning. -/
def scenarioAnswerLine (p : String × Answer) : String :=
  "- Scenario \x27" ++ p.1 ++ "\x27 has probability of happening " ++
    fixed2 (p.2.p_yes * 100) ++ "% with confidence " ++
    fixed2 (p.2.confidence * 100) ++ "%, because " ++ p.2.reasoning

/-- Newline join of the serialized (scenario, answer) pairs, as built at
source lines 201-204 and 251-254. -/
def serializeScenariosWithAnswers (l : List (String × Answer)) : String :=
  String.intercalate "\n" (l.map scenarioAnswerLine)

/-- Post-processing step of get_hypohetical_scenarios (source lines 160-162):
append the original question when the parsed scenario list does not already
contain it. -/
def addQuestionIfMissing (q : String) (s : Scenarios) : Scenarios :=
  if q ∈ s.scenarios then s else Scenarios.mk (s.scenarios ++ [q])

/-- CrewAIAgentSubquestions.get_hypohetical_scenarios (source lines 144-165).
The crew kickoff combined with Scenarios.model_validate_json is the oracle
argument; an exception there propagates (model_validate_json failures are a
hard error for this call).  On success the original question is appended when
missing. -/
def get_hypohetical_scenarios (kickoffParsed : Except PyExc Scenarios)
    (question : String) : Except PyExc Scenarios :=
  match kickoffParsed with
  | .error e => .error e
  | .ok scens => .ok (addQuestionIfMissing question scens)

/-- CrewAIAgentSubquestions.get_required_conditions (source lines 125-142):
kickoff plus schema validation, with no post-processing of the parsed list. -/
def get_required_conditions (kickoffParsed : Except PyExc Scenarios) :
    Except PyExc Scenarios :=
  kickoffParsed

/-- The observable request generate_prediction_for_one_outcome hands to the
crew: the description chosen for the research task and the inputs dict passed
to crew.kickoff. -/
structure PredTaskSpec where
  researchDescription : String
  inputs : List (String × String)
deriving DecidableEq

/-- Task and inputs construction in generate_prediction_for_one_outcome
(source lines 175-204).  The Python test
if not previous_scenarios_and_answers holds for None and for the empty list,
both modelled by the empty list here: then the plain research prompt is used
and only the sentence input is passed; otherwise the with-previous-outputs
prompt is used and the serialized previous pairs are added to the inputs. -/
def predTaskSpec (sentence : String) (prev : List (String × Answer)) :
    PredTaskSpec :=
  if prev.isEmpty then
    PredTaskSpec.mk RESEARCH_OUTCOME_PROMPT [("sentence", sentence)]
  else
    PredTaskSpec.mk RESEARCH_OUTCOME_WITH_PREVIOUS_OUTPUTS_PROMPT
      [("sentence", sentence),
       ("previous_scenarios_with_probabilities",
         serializeScenariosWithAnswers prev)]

/-- Oracle for one research-and-predict crew run: what crew.kickoff does,
the tools_errors counters recorded on the two tasks after the run, and
Answer.model_validate on the returned result. -/
structure PredictOracle where
  kick : PredTaskSpec → Except PyExc String
  researchToolsErrors : PredTaskSpec → Nat
  predictToolsErrors : PredTaskSpec → Nat
  validate : String → Except String Answer

/-- CrewAIAgentSubquestions.generate_prediction_for_one_outcome (source lines
167-230).  APIError and HTTPError from the kickoff are caught and turn into
None; other exceptions propagate.  After a normal kickoff, recorded tool
errors on either task turn into None, and a failed Answer.model_validate
(ValueError, which includes pydantic ValidationError) turns into None;
otherwise the validated Answer is returned. -/
def generate_prediction_for_one_outcome (o : PredictOracle) (sentence : String)
    (prev : List (String × Answer)) : Except PyExc (Option Answer) :=
  let task := predTaskSpec sentence prev
  match o.kick task with
  | .error e => if e.isProviderError then .ok none else .error e
  | .ok result =>
    if 0 < o.researchToolsErrors task ∨ 0 < o.predictToolsErrors task then
      .ok none
    else
      match o.validate result with
      | .ok output => .ok (some output)
      | .error _ => .ok none

/-- Oracle for the final-decision crew run: crew.kickoff on the inputs dict,
the raw_output recorded on the task after the run, and
Answer.model_validate_json. -/
structure FinalDecisionOracle where
  kick : List (String × String) → Except PyExc Unit
  rawOutput : List (String × String) → String
  validateJson : String → Except String Answer

/-- The inputs dict passed to crew.kickoff in generate_final_decision (source
lines 249-258); the integer number_of_scenarios is modelled as its decimal
string. -/
def finalDecisionInputs (question : String) (swp : List (String × Answer)) :
    List (String × String) :=
  [("scenarios_with_probabilities", serializeScenariosWithAnswers swp),
   ("number_of_scenarios", toString swp.length),
   ("scenario_to_assess", question)]

/-- CrewAIAgentSubquestions.generate_final_decision (source lines 232-263).
No exception is caught here: a kickoff exception propagates, and a failure of
Answer.model_validate_json on the task raw output propagates as a pydantic
validation error. -/
def generate_final_decision (fd : FinalDecisionOracle) (question : String)
    (swp : List (String × Answer)) : Except PyExc Answer :=
  let inputs := finalDecisionInputs question swp
  match fd.kick inputs with
  | .error e => .error e
  | .ok _ =>
    match fd.validateJson (fd.rawOutput inputs) with
    | .error m => .error (.validationError m)
    | .ok output => .ok output

/-- Oracle for one full answer_binary_market run: the parsed kickoff results
of the two scenario-generation calls, one PredictOracle per (iteration,
scenario) crew run, and the final-decision oracle. -/
structure PipelineOracle where
  hypotheticalKick : Except PyExc Scenarios
  conditionalKick : Except PyExc Scenarios
  predictAt : Nat → String → PredictOracle
  finalDecision : FinalDecisionOracle

/-- Replace the final-decision oracle of a pipeline oracle. -/
def setFinal (O : PipelineOracle) (fd : FinalDecisionOracle) : PipelineOracle :=
  PipelineOracle.mk O.hypotheticalKick O.conditionalKick O.predictAt fd

/-- Replace the per-call prediction oracles of a pipeline oracle. -/
def setPredict (O : PipelineOracle) (pa : Nat → String → PredictOracle) :
    PipelineOracle :=
  PipelineOracle.mk O.hypotheticalKick O.conditionalKick pa O.finalDecision

/-- One iteration of the loop in answer_binary_market (source lines 277-293):
par_generator maps generate_prediction_for_one_outcome over every scenario
with the previous-round pairs as context (join barrier, order preserving, per
spec section 5), then the consuming for-loop keeps the non-None results.  An
exception raised inside a prediction surfaces when its result is collected
and aborts the round. -/
def runRound (po : Nat → String → PredictOracle) (i : Nat)
    (scens : List String) (prev : List (String × Answer)) :
    Except PyExc (List (String × Answer)) :=
  match scens with
  | [] => .ok []
  | s :: rest =>
    match generate_prediction_for_one_outcome (po i s) s prev with
    | .error e => .error e
    | .ok none => runRound po i rest prev
    | .ok (some a) =>
      match runRound po i rest prev with
      | .error e => .error e
      | .ok tail => .ok ((s, a) :: tail)

/-- The for iteration in range(n_iterations) loop of answer_binary_market
(source lines 272-293): iters is the list of iteration indices, swp the
scenarios_with_probs variable, rebound to the fresh round result after every
round. -/
def refineRounds (po : Nat → String → PredictOracle) (scens : List String) :
    List Nat → List (String × Answer) → Except PyExc (List (String × Answer))
  | [], swp => .ok swp
  | i :: rest, swp =>
    match runRound po i scens swp with
    | .error e => .error e
    | .ok swp2 => refineRounds po scens rest swp2

/-- The fixed combined scenario list of source line 278: hypothetical
scenarios (with the question appended when missing) followed by the
conditional scenarios. -/
def combinedScenarios (q : String) (hs cs : Scenarios) : List String :=
  (addQuestionIfMissing q hs).scenarios ++ cs.scenarios

/-- CrewAIAgentSubquestions.answer_binary_market (source lines 265-304): both
scenario generations run first (their exceptions propagate), then the
refinement loop over range(n_iterations) starting from the empty
scenarios_with_probs, and finally generate_final_decision if
scenarios_with_probs is non-empty, else None. -/
def answer_binary_market (O : PipelineOracle) (question : String)
    (n_iterations : Nat) : Except PyExc (Option Answer) :=
  match get_hypohetical_scenarios O.hypotheticalKick question with
  | .error e => .error e
  | .ok hypothetical =>
    match get_required_conditions O.conditionalKick with
    | .error e => .error e
    | .ok conditional =>
      match refineRounds O.predictAt
          (hypothetical.scenarios ++ conditional.scenarios)
          (List.range n_iterations) [] with
      | .error e => .error e
      | .ok swp =>
        if swp.isEmpty then .ok none
        else
          match generate_final_decision O.finalDecision question swp with
          | .error e => .error e
          | .ok a => .ok (some a)

/-- Spec reference model of one refinement round (spec section 4.4): the
predictor outcome function o is consulted for every scenario of the fixed
scenario list with the previous RoundState as context, and the successful
(scenario, Answer) pairs form the new RoundState. -/
def specRoundStep (o : Nat → String → List (String × Answer) → Option Answer)
    (scens : List String) (i : Nat) (swp : List (String × Answer)) :
    List (String × Answer) :=
  scens.filterMap (fun s => (o i s swp).map (fun a => (s, a)))

/-- Spec reference model of the refinement loop (spec section 4.4): exactly R
rounds starting from the empty RoundState, each round folding the previous
RoundState in as context. -/
def specRefine (o : Nat → String → List (String × Answer) → Option Answer)
    (scens : List String) (R : Nat) : List (String × Answer) :=
  (List.range R).foldl (fun swp i => specRoundStep o scens i swp) []

/-- stop_after_attempt argument of the tenacity decorator on
TavilySearchResultsThatWillThrow (source line 42). -/
def tavilyStopAfterAttempts : Nat := 3

/-- wait_fixed argument, in seconds, of the tenacity decorator on
TavilySearchResultsThatWillThrow (source line 43). -/
def tavilyWaitSeconds : Nat := 1

/-- TavilySearchResultsThatWillThrow dot underscore run together with its
tenacity decorator, stop_after_attempt(3), wait_fixed(1), reraise=True
(source lines 40-58), unrolled for the configured 3 attempts.  The
api_wrapper.results call of each attempt is the oracle, indexed by attempt
number.  The returned triple is the final outcome (the exception of the last
attempt is reraised on exhaustion), the number of attempts made, and the
list of waits in seconds slept between consecutive attempts. -/
def tavilyRun (attempt : Nat → Except String String) :
    Except String String × Nat × List Nat :=
  match attempt 0 with
  | .ok a => (.ok a, 1, [])
  | .error _ =>
    match attempt 1 with
    | .ok a => (.ok a, 2, [tavilyWaitSeconds])
    | .error _ =>
      (attempt 2, tavilyStopAfterAttempts,
       [tavilyWaitSeconds, tavilyWaitSeconds])

/-- When every prediction call of round i returns normally with outcome
function o, the round of the embedding computes exactly the spec round step. -/
theorem runRound_eq_spec (po : Nat → String → PredictOracle)
    (o : Nat → String → List (String × Answer) → Option Answer) (i : Nat)
    (hok : ∀ s prev,
      generate_prediction_for_one_outcome (po i s) s prev = .ok (o i s prev)) :
    ∀ scens prev, runRound po i scens prev = .ok (specRoundStep o scens i prev) := by
  intro scens
  induction scens with
  | nil => intro prev; rfl
  | cons s rest ih =>
    intro prev
    have h := hok s prev
    simp only [runRound, specRoundStep, List.filterMap_cons, h]
    cases hcase : o i s prev with
    | none =>
      simpa [specRoundStep] using ih prev
    | some a =>
      simp [specRoundStep, ih prev]

/-- When every prediction call returns normally with outcome function o, the
refinement loop of the embedding is the left fold of spec round steps over
the iteration indices. -/
theorem refineRounds_eq_foldl (po : Nat → String → PredictOracle)
    (o : Nat → String → List (String × Answer) → Option Answer)
    (scens : List String)
    (hok : ∀ i s prev,
      generate_prediction_for_one_outcome (po i s) s prev = .ok (o i s prev)) :
    ∀ iters swp, refineRounds po scens iters swp =
      .ok (iters.foldl (fun sw i => specRoundStep o scens i sw) swp) := by
  intro iters
  induction iters with
  | nil => intro swp; rfl
  | cons i rest ih =>
    intro swp
    simp only [refineRounds, List.foldl_cons]
    rw [runRound_eq_spec po o i (hok i) scens swp]
    exact ih (specRoundStep o scens i swp)

/-- The refinement loop of the embedding computes the spec reference model on
the iteration list range R starting from the empty RoundState. -/
theorem refineRounds_eq_specRefine (po : Nat → String → PredictOracle)
    (o : Nat → String → List (String × Answer) → Option Answer)
    (scens : List String) (R : Nat)
    (hok : ∀ i s prev,
      generate_prediction_for_one_outcome (po i s) s prev = .ok (o i s prev)) :
    refineRounds po scens (List.range R) [] = .ok (specRefine o scens R) :=
  refineRounds_eq_foldl po o scens hok (List.range R) []

/-- The spec reference model after R + 1 rounds is one spec round step applied
to the state after R rounds. -/
theorem specRefine_succ (o : Nat → String → List (String × Answer) → Option Answer)
    (scens : List String) (n : Nat) :
    specRefine o scens (n + 1) = specRoundStep o scens n (specRefine o scens n) := by
  simp [specRefine, List.range_succ]

/-- Membership in one spec round step: a pair belongs to the new RoundState
exactly when its scenario is in the scenario list and the outcome function
produced its answer in this round with this context. -/
theorem mem_specRoundStep (o : Nat → String → List (String × Answer) → Option Answer)
    (scens : List String) (i : Nat) (swp : List (String × Answer))
    (s : String) (a : Answer) :
    (s, a) ∈ specRoundStep o scens i swp ↔ s ∈ scens ∧ o i s swp = some a := by
  simp only [specRoundStep, List.mem_filterMap]
  constructor
  · rintro ⟨s2, hs2, hmap⟩
    rcases hmap2 : o i s2 swp with _ | a2
    · rw [hmap2] at hmap; simp at hmap
    · rw [hmap2] at hmap
      simp only [Option.map_some', Option.some.injEq, Prod.mk.injEq] at hmap
      obtain ⟨rfl, rfl⟩ := hmap
      exact ⟨hs2, hmap2⟩
  · rintro ⟨hs, ho⟩
    exact ⟨s, hs, by rw [ho]; rfl⟩

/-- Shape of answer_binary_market when both scenario generations succeed and
every prediction call returns normally: the final RoundState is the spec
reference model over the combined scenario list, and the final decision runs
only on a non-empty final RoundState. -/
theorem answer_binary_market_eq (O : PipelineOracle) (q : String) (R : Nat)
    (hs cs : Scenarios)
    (o : Nat → String → List (String × Answer) → Option Answer)
    (hh : O.hypotheticalKick = .ok hs) (hc : O.conditionalKick = .ok cs)
    (hok : ∀ i s prev,
      generate_prediction_for_one_outcome (O.predictAt i s) s prev =
        .ok (o i s prev)) :
    answer_binary_market O q R =
      (if (specRefine o (combinedScenarios q hs cs) R).isEmpty then .ok none
       else
         match generate_final_decision O.finalDecision q
             (specRefine o (combinedScenarios q hs cs) R) with
         | .error e => .error e
         | .ok a => .ok (some a)) := by
  simp only [answer_binary_market, get_hypohetical_scenarios,
    get_required_conditions, combinedScenarios, hh, hc]
  rw [refineRounds_eq_specRefine O.predictAt o
    ((addQuestionIfMissing q hs).scenarios ++ cs.scenarios) R hok]

/-- The result of answer_binary_market depends on the final-decision oracle
only through its behavior on non-empty scenario-answer lists: the aggregator
is consulted only with a non-empty mapping. -/
theorem answer_binary_market_final_ext (O : PipelineOracle)
    (fd1 fd2 : FinalDecisionOracle) (q : String) (n : Nat)
    (h : ∀ q2 swp, swp ≠ [] →
      generate_final_decision fd1 q2 swp = generate_final_decision fd2 q2 swp) :
    answer_binary_market (setFinal O fd1) q n =
      answer_binary_market (setFinal O fd2) q n := by
  cases hh : O.hypotheticalKick with
  | error e =>
    simp [answer_binary_market, setFinal, get_hypohetical_scenarios, hh]
  | ok hs =>
    cases hc : O.conditionalKick with
    | error e =>
      simp [answer_binary_market, setFinal, get_hypohetical_scenarios,
        get_required_conditions, hh, hc]
    | ok cs =>
      simp only [answer_binary_market, setFinal, get_hypohetical_scenarios,
        get_required_conditions, hh, hc]
      cases refineRounds O.predictAt
          ((addQuestionIfMissing q hs).scenarios ++ cs.scenarios)
          (List.range n) [] with
      | error e => rfl
      | ok swp =>
        cases swp with
        | nil => rfl
        | cons p rest =>
          simp [h q (p :: rest) (List.cons_ne_nil p rest)]

/-- C1: the claim as stated is false on the code: when the raw scenario list
of the model already contains the question more than once, nothing removes the
duplicates, so the returned ScenarioSet contains the original question twice,
not exactly once.  Concrete input: question Q with raw parsed list [Q, Q]. -/
theorem c1_counterexample :
    get_hypohetical_scenarios (Except.ok (Scenarios.mk ["Q", "Q"])) "Q" =
      Except.ok (Scenarios.mk ["Q", "Q"]) ∧
    List.count "Q" ["Q", "Q"] = 2 ∧ ¬ List.count "Q" ["Q", "Q"] = 1 := by
  refine ⟨?_, by decide, by decide⟩
  simp [get_hypohetical_scenarios, addQuestionIfMissing]

/-- C1 (amended): the hypothetical ScenarioSet contains the original question
at least once; it contains it exactly once when the raw output of the model
listed it at most once (in particular when the raw output omitted it), and
with its raw multiplicity otherwise: the count of the question in the result
is the maximum of 1 and its count in the raw list. -/
theorem c1_hypothetical_question_count (raw : Scenarios) (q : String)
    (s2 : Scenarios)
    (h : get_hypohetical_scenarios (Except.ok raw) q = Except.ok s2) :
    List.count q s2.scenarios = max 1 (List.count q raw.scenarios) ∧
    0 < List.count q s2.scenarios := by
  have hs2 : s2 = addQuestionIfMissing q raw := by
    simpa [get_hypohetical_scenarios] using h.symm
  subst hs2
  unfold addQuestionIfMissing
  by_cases hq : q ∈ raw.scenarios
  · have hpos : 0 < List.count q raw.scenarios :=
      List.count_pos_iff.mpr hq
    rw [if_pos hq]
    exact ⟨(Nat.max_eq_right hpos).symm, hpos⟩
  · have hzero : List.count q raw.scenarios = 0 :=
      List.count_eq_zero.mpr hq
    rw [if_neg hq]
    constructor
    · simp [List.count_append, hzero]
    · simp [List.count_append]

/-- Witness for C1: with raw list [A] that omits the question Q, the result
[A, Q] contains Q exactly once. -/
theorem c1_witness :
    List.count "Q" (Scenarios.mk ["A", "Q"]).scenarios =
      max 1 (List.count "Q" (Scenarios.mk ["A"]).scenarios) ∧
    0 < List.count "Q" (Scenarios.mk ["A", "Q"]).scenarios :=
  c1_hypothetical_question_count (Scenarios.mk ["A"]) "Q"
    (Scenarios.mk ["A", "Q"])
    (by simp [get_hypohetical_scenarios, addQuestionIfMissing])

/-- Concrete predict oracle whose crew run raises an exception that is
neither an APIError nor an HTTPError, with no tool errors recorded. -/
def c2BoomOracle : PredictOracle :=
  PredictOracle.mk (fun _ => .error (.otherExc "boom")) (fun _ => 0)
    (fun _ => 0) (fun r => .ok (Answer.mk "y" (1 / 2) 1 r))

/-- C2: the claim as stated is false on the code: when crew.kickoff raises an
exception that is not an APIError or HTTPError, none of the three listed
NONE conditions holds (the error is not provider-level, no tool errors are
recorded, validation never fails), yet the function propagates the exception
instead of returning the validated Answer. -/
theorem c2_counterexample :
    generate_prediction_for_one_outcome c2BoomOracle "Q" [] =
      Except.error (PyExc.otherExc "boom") ∧
    PyExc.isProviderError (PyExc.otherExc "boom") = false ∧
    c2BoomOracle.researchToolsErrors (predTaskSpec "Q" []) = 0 ∧
    c2BoomOracle.predictToolsErrors (predTaskSpec "Q" []) = 0 := by
  exact ⟨rfl, rfl, rfl, rfl⟩

/-- C2 (amended): generate_prediction_for_one_outcome returns NONE when the
crew run raises a provider-level error (APIError or HTTPError), when a tool
recorded an execution error, or when the result fails validation against the
Answer schema; it returns the validated Answer when the crew run completes
with no tool error and validation succeeds; and when the crew run raises an
exception that is not provider-level, that exception propagates.  The five
cases below are mutually exclusive and cover every behavior of the oracle, so
each outcome happens exactly under the stated condition. -/
theorem c2_prediction_outcomes (o : PredictOracle) (sentence : String)
    (prev : List (String × Answer)) :
    (∀ e, o.kick (predTaskSpec sentence prev) = .error e →
      e.isProviderError = true →
      generate_prediction_for_one_outcome o sentence prev = .ok none) ∧
    (∀ e, o.kick (predTaskSpec sentence prev) = .error e →
      e.isProviderError = false →
      generate_prediction_for_one_outcome o sentence prev = .error e) ∧
    (∀ r, o.kick (predTaskSpec sentence prev) = .ok r →
      (0 < o.researchToolsErrors (predTaskSpec sentence prev) ∨
       0 < o.predictToolsErrors (predTaskSpec sentence prev)) →
      generate_prediction_for_one_outcome o sentence prev = .ok none) ∧
    (∀ r m, o.kick (predTaskSpec sentence prev) = .ok r →
      o.researchToolsErrors (predTaskSpec sentence prev) = 0 →
      o.predictToolsErrors (predTaskSpec sentence prev) = 0 →
      o.validate r = .error m →
      generate_prediction_for_one_outcome o sentence prev = .ok none) ∧
    (∀ r a, o.kick (predTaskSpec sentence prev) = .ok r →
      o.researchToolsErrors (predTaskSpec sentence prev) = 0 →
      o.predictToolsErrors (predTaskSpec sentence prev) = 0 →
      o.validate r = .ok a →
      generate_prediction_for_one_outcome o sentence prev = .ok (some a)) := by
  refine ⟨?_, ?_, ?_, ?_, ?_⟩
  · intro e hk hpe
    simp [generate_prediction_for_one_outcome, hk, hpe]
  · intro e hk hpe
    simp [generate_prediction_for_one_outcome, hk, hpe]
  · intro r hk ht
    simp [generate_prediction_for_one_outcome, hk, if_pos ht]
  · intro r m hk hre hpr hv
    simp [generate_prediction_for_one_outcome, hk, hre, hpr, hv]
  · intro r a hk hre hpr hv
    simp [generate_prediction_for_one_outcome, hk, hre, hpr, hv]

/-- Concrete predict oracle whose crew run completes normally with no tool
errors and a successfully validated Answer. -/
def c2GoodOracle : PredictOracle :=
  PredictOracle.mk (fun _ => .ok "raw") (fun _ => 0) (fun _ => 0)
    (fun _ => .ok (Answer.mk "y" (7 / 10) (9 / 10) "strong evidence"))

/-- Witness for C2: on an oracle with a clean run, the validated Answer is
returned. -/
theorem c2_witness :
    generate_prediction_for_one_outcome c2GoodOracle "Q" [] =
      .ok (some (Answer.mk "y" (7 / 10) (9 / 10) "strong evidence")) :=
  (c2_prediction_outcomes c2GoodOracle "Q" []).2.2.2.2 "raw"
    (Answer.mk "y" (7 / 10) (9 / 10) "strong evidence") rfl rfl rfl rfl

/-- C3: when the refinement loop ends with an empty scenarios_with_probs
list, answer_binary_market returns None without raising, and the result of
the pipeline depends on the final-decision oracle only through its behavior
on non-empty mappings, so generate_final_decision is never invoked with an
empty mapping and is not invoked at all when the final mapping is empty. -/
theorem c3_empty_final_round_no_final_answer (O : PipelineOracle) (q : String)
    (R : Nat) (hs cs : Scenarios)
    (hh : O.hypotheticalKick = .ok hs) (hc : O.conditionalKick = .ok cs)
    (hempty : refineRounds O.predictAt (combinedScenarios q hs cs)
      (List.range R) [] = .ok []) :
    answer_binary_market O q R = .ok none ∧
    (∀ (O2 : PipelineOracle) (fd1 fd2 : FinalDecisionOracle) (q2 : String)
       (n : Nat),
      (∀ q3 swp, swp ≠ [] →
        generate_final_decision fd1 q3 swp = generate_final_decision fd2 q3 swp) →
      answer_binary_market (setFinal O2 fd1) q2 n =
        answer_binary_market (setFinal O2 fd2) q2 n) := by
  constructor
  · simp only [combinedScenarios] at hempty
    simp only [answer_binary_market, get_hypohetical_scenarios,
      get_required_conditions, hh, hc, hempty]
    rfl
  · exact fun O2 fd1 fd2 q2 n h =>
      answer_binary_market_final_ext O2 fd1 fd2 q2 n h

/-- Concrete predict oracle whose research task always records one tool
error, so that every prediction is discarded as None. -/
def c3ToolErrOracle : PredictOracle :=
  PredictOracle.mk (fun _ => .ok "raw") (fun _ => 1) (fun _ => 0)
    (fun _ => .error "unused")

/-- Concrete final-decision oracle (never reached in the C3 witness). -/
def c3Fd : FinalDecisionOracle :=
  FinalDecisionOracle.mk (fun _ => .ok ()) (fun _ => "raw")
    (fun _ => .error "malformed")

/-- Concrete pipeline oracle for the C3 witness: both scenario generations
succeed and every prediction fails with a tool error. -/
def c3Pipeline : PipelineOracle :=
  PipelineOracle.mk (.ok (Scenarios.mk ["A"])) (.ok (Scenarios.mk ["B"]))
    (fun _ _ => c3ToolErrOracle) c3Fd

/-- Witness for C3: with every prediction failing in the single round, the
pipeline returns None. -/
theorem c3_witness : answer_binary_market c3Pipeline "Q" 1 = .ok none :=
  (c3_empty_final_round_no_final_answer c3Pipeline "Q" 1
    (Scenarios.mk ["A"]) (Scenarios.mk ["B"]) rfl rfl rfl).1

/-- C4: when the final model output fails validation against the Answer
schema, generate_final_decision propagates the validation error as a hard
error: the result is that error, not any Answer (so no retry result and no
default Answer is returned). -/
theorem c4_final_decision_validation_error_propagates
    (fd : FinalDecisionOracle) (q : String) (swp : List (String × Answer))
    (m : String)
    (hkick : fd.kick (finalDecisionInputs q swp) = .ok ())
    (hval : fd.validateJson (fd.rawOutput (finalDecisionInputs q swp)) =
      .error m) :
    generate_final_decision fd q swp = .error (.validationError m) ∧
    ∀ a : Answer, generate_final_decision fd q swp ≠ .ok a := by
  have hmain : generate_final_decision fd q swp = .error (.validationError m) := by
    simp [generate_final_decision, hkick, hval]
  exact ⟨hmain, fun a h => by rw [hmain] at h; exact absurd h (by simp)⟩

/-- Concrete final-decision oracle whose model output fails Answer
validation. -/
def c4BadFd : FinalDecisionOracle :=
  FinalDecisionOracle.mk (fun _ => .ok ()) (fun _ => "not json")
    (fun _ => .error "invalid Answer")

/-- Witness for C4: with malformed aggregator output, the pipeline-level
final decision is the propagated validation error. -/
theorem c4_witness :
    generate_final_decision c4BadFd "Q" [] =
      .error (.validationError "invalid Answer") :=
  (c4_final_decision_validation_error_propagates c4BadFd "Q" [] "invalid Answer"
    rfl rfl).1

/-- C5: when every prediction call returns normally, the refinement loop of
answer_binary_market runs over exactly the iteration indices range R (no
early exit), its result is R applications of the one-round step starting at
the empty state, and each round step consults the outcome function at every
scenario of the fixed list: in particular a scenario whose earlier rounds
returned NONE (hence absent from the context swp) still contributes the pair
(s, a) to round i whenever its fresh retry in round i succeeds. -/
theorem c5_loop_runs_exactly_R_rounds (po : Nat → String → PredictOracle)
    (o : Nat → String → List (String × Answer) → Option Answer)
    (scens : List String) (R : Nat) (hR : 1 ≤ R)
    (hok : ∀ i s prev,
      generate_prediction_for_one_outcome (po i s) s prev = .ok (o i s prev)) :
    refineRounds po scens (List.range R) [] = .ok (specRefine o scens R) ∧
    specRefine o scens 0 = [] ∧
    (∀ n, specRefine o scens (n + 1) =
      specRoundStep o scens n (specRefine o scens n)) ∧
    (∀ i swp s a, s ∈ scens → o i s swp = some a →
      (s, a) ∈ specRoundStep o scens i swp) := by
  refine ⟨refineRounds_eq_specRefine po o scens R hok, rfl,
    fun n => specRefine_succ o scens n, fun i swp s a hs ho => ?_⟩
  exact (mem_specRoundStep o scens i swp s a).mpr ⟨hs, ho⟩

/-- Concrete predict oracle for the C5 witness: every crew run succeeds and
validates to a fixed Answer. -/
def c5Oracle : PredictOracle :=
  PredictOracle.mk (fun _ => .ok "raw") (fun _ => 0) (fun _ => 0)
    (fun _ => .ok (Answer.mk "y" (3 / 5) (4 / 5) "steady"))

/-- Witness for C5 at R = 2 over one scenario. -/
theorem c5_witness :
    refineRounds (fun _ _ => c5Oracle) ["A"] (List.range 2) [] =
      .ok (specRefine
        (fun _ _ _ => some (Answer.mk "y" (3 / 5) (4 / 5) "steady")) ["A"] 2) :=
  (c5_loop_runs_exactly_R_rounds (fun _ _ => c5Oracle)
    (fun _ _ _ => some (Answer.mk "y" (3 / 5) (4 / 5) "steady")) ["A"] 2
    (by decide) (fun _ _ _ => rfl)).1

/-- C6: the previous-round context of every prediction call.  When every
prediction call returns normally: (a) every call of round i receives the
round context swp unchanged (the round result is determined by the outcome
function applied at exactly that context for every scenario); (b) the swp
fed into the calls of the next round is exactly the full output of the
current round; (c) a prediction call consults its oracle only at the task
spec built from its sentence and its context; (d) with an empty context
(round 1) the task uses the no-previous-outputs research prompt and passes
only the sentence, while with a non-empty context it uses the
with-previous-outputs prompt and passes the serialization of all
(scenario, answer) pairs with probability, confidence and reasoning, and the
two prompts are distinct. -/
theorem c6_round_context (po : Nat → String → PredictOracle)
    (o : Nat → String → List (String × Answer) → Option Answer)
    (scens : List String)
    (hok : ∀ i s prev,
      generate_prediction_for_one_outcome (po i s) s prev = .ok (o i s prev)) :
    (∀ i prev, runRound po i scens prev = .ok (specRoundStep o scens i prev)) ∧
    (∀ i rest swp, refineRounds po scens (i :: rest) swp =
      refineRounds po scens rest (specRoundStep o scens i swp)) ∧
    (∀ (o1 o2 : PredictOracle) (s : String) (prev : List (String × Answer)),
      o1.kick (predTaskSpec s prev) = o2.kick (predTaskSpec s prev) →
      o1.researchToolsErrors (predTaskSpec s prev) =
        o2.researchToolsErrors (predTaskSpec s prev) →
      o1.predictToolsErrors (predTaskSpec s prev) =
        o2.predictToolsErrors (predTaskSpec s prev) →
      o1.validate = o2.validate →
      generate_prediction_for_one_outcome o1 s prev =
        generate_prediction_for_one_outcome o2 s prev) ∧
    (∀ s, predTaskSpec s [] =
      PredTaskSpec.mk RESEARCH_OUTCOME_PROMPT [("sentence", s)]) ∧
    (∀ s prev, prev ≠ [] → predTaskSpec s prev =
      PredTaskSpec.mk RESEARCH_OUTCOME_WITH_PREVIOUS_OUTPUTS_PROMPT
        [("sentence", s),
         ("previous_scenarios_with_probabilities",
           serializeScenariosWithAnswers prev)]) ∧
    RESEARCH_OUTCOME_PROMPT ≠ RESEARCH_OUTCOME_WITH_PREVIOUS_OUTPUTS_PROMPT := by
  refine ⟨fun i prev => runRound_eq_spec po o i (hok i) scens prev,
    fun i rest swp => ?_, fun o1 o2 s prev h1 h2 h3 h4 => ?_,
    fun s => rfl, fun s prev hprev => ?_, by decide⟩
  · simp only [refineRounds]
    rw [runRound_eq_spec po o i (hok i) scens swp]
  · simp only [generate_prediction_for_one_outcome, h1, h2, h3, h4]
  · cases prev with
    | nil => exact absurd rfl hprev
    | cons p rest => rfl

/-- Concrete predict oracle for the C6 witness. -/
def c6Oracle : PredictOracle :=
  PredictOracle.mk (fun _ => .ok "raw") (fun _ => 0) (fun _ => 0)
    (fun _ => .ok (Answer.mk "n" (1 / 4) (1 / 2) "weak"))

/-- Witness for C6: the first round receives the empty context. -/
theorem c6_witness :
    runRound (fun _ _ => c6Oracle) 0 ["A"] [] =
      .ok (specRoundStep
        (fun _ _ _ => some (Answer.mk "n" (1 / 4) (1 / 2) "weak")) ["A"] 0 []) :=
  (c6_round_context (fun _ _ => c6Oracle)
    (fun _ _ _ => some (Answer.mk "n" (1 / 4) (1 / 2) "weak")) ["A"]
    (fun _ _ _ => rfl)).1 0 []

/-- C7: with both scenario generations succeeding and every prediction call
returning normally, the RoundState is replaced each round: the mapping handed
to generate_final_decision after n + 1 rounds is exactly the one-round step
of the last round (round index n) applied to the state of the earlier
rounds, and a pair belongs to that final mapping exactly when its scenario is
in the fixed combined list and its answer was produced in the last round, so
no Answer from an earlier round reaches aggregation. -/
theorem c7_roundstate_replaced_each_round (O : PipelineOracle) (q : String)
    (hs cs : Scenarios) (n : Nat)
    (o : Nat → String → List (String × Answer) → Option Answer)
    (hh : O.hypotheticalKick = .ok hs) (hc : O.conditionalKick = .ok cs)
    (hok : ∀ i s prev,
      generate_prediction_for_one_outcome (O.predictAt i s) s prev =
        .ok (o i s prev)) :
    answer_binary_market O q (n + 1) =
      (if (specRoundStep o (combinedScenarios q hs cs) n
            (specRefine o (combinedScenarios q hs cs) n)).isEmpty then
        .ok none
       else
         match generate_final_decision O.finalDecision q
             (specRoundStep o (combinedScenarios q hs cs) n
               (specRefine o (combinedScenarios q hs cs) n)) with
         | .error e => .error e
         | .ok a => .ok (some a)) ∧
    (∀ s a, (s, a) ∈ specRoundStep o (combinedScenarios q hs cs) n
        (specRefine o (combinedScenarios q hs cs) n) ↔
      (s ∈ combinedScenarios q hs cs ∧
        o n s (specRefine o (combinedScenarios q hs cs) n) = some a)) := by
  constructor
  · rw [answer_binary_market_eq O q (n + 1) hs cs o hh hc hok,
      specRefine_succ o (combinedScenarios q hs cs) n]
  · exact fun s a =>
      mem_specRoundStep o (combinedScenarios q hs cs) n
        (specRefine o (combinedScenarios q hs cs) n) s a

/-- Concrete predict oracle for the C7 witness. -/
def c7Oracle : PredictOracle :=
  PredictOracle.mk (fun _ => .ok "raw") (fun _ => 0) (fun _ => 0)
    (fun _ => .ok (Answer.mk "y" (1 / 2) (1 / 2) "even"))

/-- Concrete final-decision oracle for the C7 witness. -/
def c7Fd : FinalDecisionOracle :=
  FinalDecisionOracle.mk (fun _ => .ok ()) (fun _ => "raw")
    (fun _ => .ok (Answer.mk "y" (1 / 2) (1 / 2) "aggregate"))

/-- Concrete pipeline oracle for the C7 witness. -/
def c7Pipeline : PipelineOracle :=
  PipelineOracle.mk (.ok (Scenarios.mk ["A"])) (.ok (Scenarios.mk ["B"]))
    (fun _ _ => c7Oracle) c7Fd

/-- Witness for C7: membership in the final mapping after one round is
exactly production in that round. -/
theorem c7_witness :
    ("A", Answer.mk "y" (1 / 2) (1 / 2) "even") ∈
      specRoundStep (fun _ _ _ => some (Answer.mk "y" (1 / 2) (1 / 2) "even"))
        (combinedScenarios "Q" (Scenarios.mk ["A"]) (Scenarios.mk ["B"])) 0
        (specRefine (fun _ _ _ => some (Answer.mk "y" (1 / 2) (1 / 2) "even"))
          (combinedScenarios "Q" (Scenarios.mk ["A"]) (Scenarios.mk ["B"])) 0) ↔
    ("A" ∈ combinedScenarios "Q" (Scenarios.mk ["A"]) (Scenarios.mk ["B"]) ∧
      (fun _ _ _ => some (Answer.mk "y" (1 / 2) (1 / 2) "even")) 0 "A"
        (specRefine (fun _ _ _ => some (Answer.mk "y" (1 / 2) (1 / 2) "even"))
          (combinedScenarios "Q" (Scenarios.mk ["A"]) (Scenarios.mk ["B"])) 0) =
        some (Answer.mk "y" (1 / 2) (1 / 2) "even")) :=
  (c7_roundstate_replaced_each_round c7Pipeline "Q" (Scenarios.mk ["A"])
    (Scenarios.mk ["B"]) 0 (fun _ _ _ => some (Answer.mk "y" (1 / 2) (1 / 2) "even"))
    rfl rfl (fun _ _ _ => rfl)).2 "A" (Answer.mk "y" (1 / 2) (1 / 2) "even")

/-- C8: the search tool retries a transient provider error up to 3 attempts
with a fixed 1 second delay between attempts, stops retrying at the first
success, and after the 3rd failed attempt reraises the last error; and a
tool-execution failure recorded on the research task makes the predictor
return NONE instead of crashing (the recording of the reraised exception as
a tools_errors increment happens inside the external crewAI runtime and is
modelled through the tools-errors counter of the oracle, per the spec). -/
theorem c8_search_retry (attempt : Nat → Except String String)
    (e0 e1 e2 : String) (r : String) :
    (attempt 0 = .error e0 → attempt 1 = .error e1 → attempt 2 = .error e2 →
      tavilyRun attempt = (.error e2, tavilyStopAfterAttempts,
        [tavilyWaitSeconds, tavilyWaitSeconds])) ∧
    (attempt 0 = .ok r → tavilyRun attempt = (.ok r, 1, [])) ∧
    (attempt 0 = .error e0 → attempt 1 = .ok r →
      tavilyRun attempt = (.ok r, 2, [tavilyWaitSeconds])) ∧
    (∀ (po : PredictOracle) (s : String) (prev : List (String × Answer))
       (raw : String),
      po.kick (predTaskSpec s prev) = .ok raw →
      0 < po.researchToolsErrors (predTaskSpec s prev) →
      generate_prediction_for_one_outcome po s prev = .ok none) := by
  refine ⟨fun h0 h1 h2 => ?_, fun h0 => ?_, fun h0 h1 => ?_,
    fun po s prev raw hk ht => ?_⟩
  · simp [tavilyRun, h0, h1, h2]
  · simp [tavilyRun, h0]
  · simp [tavilyRun, h0, h1]
  · simp [generate_prediction_for_one_outcome, hk, ht]

/-- Witness for C8: a persistently failing search provider is attempted
exactly 3 times with 1 second waits and the last error is reraised. -/
theorem c8_witness :
    tavilyRun (fun _ => .error "down") =
      (.error "down", tavilyStopAfterAttempts,
       [tavilyWaitSeconds, tavilyWaitSeconds]) :=
  (c8_search_retry (fun _ => .error "down") "down" "down" "down" "").1
    rfl rfl rfl

/-- C9: every Answer returned by the predictor has complementary
probabilities: probability-of-yes plus probability-of-no equals 1 (exactly,
in the rational model).  The Answer schema itself lives in the external
prediction_market_agent_tooling package and is modelled from the spec, which
declares the two probabilities complementary; the pipeline performs no
normalization of its own. -/
theorem c9_probabilities_sum_to_one (o : PredictOracle) (s : String)
    (prev : List (String × Answer)) (a : Answer)
    (h : generate_prediction_for_one_outcome o s prev = .ok (some a)) :
    a.p_yes + a.p_no = 1 := by
  unfold Answer.p_no
  ring

/-- Concrete predict oracle for the C9 witness. -/
def c9Oracle : PredictOracle :=
  PredictOracle.mk (fun _ => .ok "raw") (fun _ => 0) (fun _ => 0)
    (fun _ => .ok (Answer.mk "y" (2 / 3) (1 / 2) "solid"))

/-- Witness for C9 at a concrete predictor-returned Answer. -/
theorem c9_witness :
    (Answer.mk "y" (2 / 3) (1 / 2) "solid").p_yes +
      (Answer.mk "y" (2 / 3) (1 / 2) "solid").p_no = 1 :=
  c9_probabilities_sum_to_one c9Oracle "Q" []
    (Answer.mk "y" (2 / 3) (1 / 2) "solid") rfl

/-- C10: with n_iterations = 0 the refinement loop body never runs, so
answer_binary_market returns None for every prediction and final-decision
oracle (no research, prediction or aggregation is performed), provided both
scenario-generation calls succeed; the scenario-generation calls themselves
still run, as a failure of the hypothetical one still surfaces. -/
theorem c10_zero_iterations_returns_none (O : PipelineOracle) (q : String)
    (hs cs : Scenarios)
    (hh : O.hypotheticalKick = .ok hs) (hc : O.conditionalKick = .ok cs) :
    answer_binary_market O q 0 = .ok none ∧
    (∀ (pa : Nat → String → PredictOracle) (fd : FinalDecisionOracle),
      answer_binary_market (setPredict (setFinal O fd) pa) q 0 = .ok none) ∧
    (∀ (O2 : PipelineOracle) (e : PyExc), O2.hypotheticalKick = .error e →
      answer_binary_market O2 q 0 = .error e) := by
  refine ⟨?_, fun pa fd => ?_, fun O2 e h2 => ?_⟩
  · simp only [answer_binary_market, get_hypohetical_scenarios,
      get_required_conditions, hh, hc]
    rfl
  · simp only [answer_binary_market, setPredict, setFinal,
      get_hypohetical_scenarios, get_required_conditions, hh, hc]
    rfl
  · simp only [answer_binary_market, get_hypohetical_scenarios, h2]

/-- Concrete pipeline oracle for the C10 witness. -/
def c10Pipeline : PipelineOracle :=
  PipelineOracle.mk (.ok (Scenarios.mk ["A"])) (.ok (Scenarios.mk ["B"]))
    (fun _ _ => c7Oracle) c7Fd

/-- Witness for C10: zero iterations yield None despite successful scenario
generation. -/
theorem c10_witness : answer_binary_market c10Pipeline "Q" 0 = .ok none :=
  (c10_zero_iterations_returns_none c10Pipeline "Q" (Scenarios.mk ["A"])
    (Scenarios.mk ["B"]) rfl rfl).1
